import Mathlib

/-!
Shallow embedding of the `cooking_companion` Django app
(models.py / forms.py / views.py) and verification of its specification.

Conventions of the embedding:
* users are identified by their primary key (`UserId := Nat`);
* an `Owned` record's `created_by` is `Option UserId` (`none` = NULL);
* dates (`cooked_on`, "today") are day numbers (`Int`); `timedelta(days=n)`
  is `+ n`;
* the database is a record of lists, one per table; row order stands in for
  no particular ordering (none of the verified properties concern ordering);
* timestamp columns (`created_at` / `updated_at`) are omitted: they are only
  used for ordering;
* an HTTP 404 (`Http404` raised / `get_object_or_404` miss) is an
  `Except`-error; a request that errors leaves the database unchanged,
  mirrored by the `apply…` wrappers.
-/

namespace CookingCompanion

abbrev UserId := Nat

/-- views.py `owned_q(user)`: `Q(created_by=user) | Q(created_by__isnull=True)`. -/
def owned_q (user : UserId) (created_by : Option UserId) : Bool :=
  created_by == some user || created_by == none

/-- Contiguous-sublist test on character lists. -/
def charsContain (needle : List Char) : List Char → Bool
  | [] => needle.isEmpty
  | c :: rest => needle.isPrefixOf (c :: rest) || charsContain needle rest

/-- Case-insensitive substring test, modelling the ORM `__icontains` lookup. -/
def icontains (haystack needle : String) : Bool :=
  charsContain needle.toLower.data haystack.toLower.data

-- ----------------------------
-- Core domain (models.py)
-- ----------------------------

/-- models.py `Recipe` (timestamp columns omitted, see header). -/
structure Recipe where
  pk : Nat
  created_by : Option UserId
  title : String
  description : String
  author : String
  ingredients : String
  instructions : String
  yield_text : String
  prep_minutes : Option Nat
  cook_minutes : Option Nat
  is_favorite : Bool
  is_active : Bool
deriving DecidableEq, Repr

/-- models.py `Dish`; `default_recipe` is a nullable FK (Recipe pk), SET_NULL. -/
structure Dish where
  pk : Nat
  created_by : Option UserId
  name : String
  description : String
  default_recipe : Option Nat
  is_active : Bool
deriving DecidableEq, Repr

/-- models.py `CookSession.MealType`. -/
inductive MealType
  | breakfast | lunch | dinner | snack | dessert | other
deriving DecidableEq, Repr

/-- models.py `CookSession.CookMethod`. -/
inductive CookMethod
  | stovetop | oven | grill | air_fryer | microwave | no_cook | other
deriving DecidableEq, Repr

/-- models.py `CookSession`; `dish` is a PROTECT FK (Dish pk), `recipe_used`
a nullable SET_NULL FK (Recipe pk); `cooked_on` is a day number. -/
structure CookSession where
  pk : Nat
  created_by : Option UserId
  dish : Nat
  recipe_used : Option Nat
  cooked_on : Int
  meal_type : MealType
  method : CookMethod
  servings_made : Option Rat
  duration_minutes : Option Nat
  summary : String
  is_active : Bool
deriving DecidableEq, Repr

/-- models.py `CookResult.Outcome`; default is `experiment`. -/
inductive Outcome
  | nailed_it | good | okay | fail | experiment
deriving DecidableEq, Repr

/-- models.py `CookResult`; `cook_session` is a OneToOneField (CASCADE),
so at most one result per session is a database invariant. -/
structure CookResult where
  pk : Nat
  created_by : Option UserId
  cook_session : Nat
  outcome : Outcome
  overall_rating : Option Nat
  taste_rating : Option Nat
  texture_rating : Option Nat
  appearance_rating : Option Nat
  would_make_again : Bool
  what_worked : String
  what_to_change : String
  next_time_plan : String
deriving DecidableEq, Repr

-- ----------------------------
-- Generic attachments (models.py)
-- ----------------------------

/-- The content types an attachment can point at.  views.py restricts targets
to exactly these four models (`ALLOWED_TARGET_MODELS`). -/
inductive TargetModel
  | recipe | dish | cooksession | cookresult
deriving DecidableEq, Repr

/-- models.py `Note`: generic attachment via (content_type, object_id). -/
structure Note where
  pk : Nat
  created_by : Option UserId
  content_type : TargetModel
  object_id : String
  title : String
  body : String
  is_pinned : Bool
deriving DecidableEq, Repr

/-- models.py `TrackedImage` (uuid modelled as a Nat; `image` is the blob name). -/
structure TrackedImage where
  pk : Nat
  created_by : Option UserId
  uuid : Nat
  content_type : TargetModel
  object_id : String
  image : String
  caption : String
  alt_text : String
  taken_at : Option Int
  sort_order : Nat
  is_cover : Bool
deriving DecidableEq, Repr

/-- models.py `ReferenceURL.Kind`. -/
inductive URLKind
  | recipe | video | product | article | other
deriving DecidableEq, Repr

/-- models.py `ReferenceURL`. -/
structure ReferenceURL where
  pk : Nat
  created_by : Option UserId
  content_type : TargetModel
  object_id : String
  kind : URLKind
  title : String
  url : String
  description : String
  sort_order : Nat
  is_primary : Bool
deriving DecidableEq, Repr

/-- models.py `PDFDocument.Kind`. -/
inductive PDFKind
  | recipe | reference | instructions | other
deriving DecidableEq, Repr

/-- models.py `PDFDocument`; `pdf` is the file's name (`none` when the
FileField is falsy). -/
structure PDFDocument where
  pk : Nat
  created_by : Option UserId
  uuid : Nat
  content_type : TargetModel
  object_id : String
  kind : PDFKind
  title : String
  description : String
  pdf : Option String
  original_filename : String
  page_count : Option Nat
  sort_order : Nat
deriving DecidableEq, Repr

/-- models.py `PDFDocument.save`: keep the original filename if not provided,
then persist (persistence itself is done by the callers in this embedding). -/
def pdfDocumentSave (p : PDFDocument) : PDFDocument :=
  match p.pdf with
  | some name =>
      if p.original_filename = "" then
        { p with original_filename := (name.splitOn "/").getLastD "" }
      else p
  | none => p

/-- The database: one list per table. -/
structure DB where
  recipes : List Recipe
  dishes : List Dish
  sessions : List CookSession
  results : List CookResult
  notes : List Note
  images : List TrackedImage
  urls : List ReferenceURL
  pdfs : List PDFDocument
deriving DecidableEq, Repr

-- ----------------------------
-- View layer (views.py): querysets
-- ----------------------------

/-- Error values carried by an HTTP 404 response (`Http404` /
`get_object_or_404`). -/
inductive Http404Error
  | unknownTargetModel
  | objectNotFound
deriving DecidableEq, Repr

/-- GET parameters used by `RecipeListView.get_queryset`
(`request.GET.get(...)`; `none` = parameter absent). -/
structure RecipeListParams where
  q : String
  favorite : Option String
  active : Option String
deriving DecidableEq, Repr

/-- views.py `RecipeListView.get_queryset` (ordering omitted). -/
def recipeListQueryset (db : DB) (user : UserId) (p : RecipeListParams) : List Recipe :=
  let qs := db.recipes.filter (fun r => owned_q user r.created_by)
  let q := p.q.trim
  let qs := if q ≠ "" then
      qs.filter (fun r => icontains r.title q || icontains r.author q || icontains r.description q)
    else qs
  let qs := if p.favorite == some "1" then qs.filter (fun r => r.is_favorite) else qs
  if p.active == some "0" then qs.filter (fun r => !r.is_active) else qs

/-- views.py `RecipeDetailView.get_queryset`. -/
def recipeDetailQueryset (db : DB) (user : UserId) : List Recipe :=
  db.recipes.filter (fun r => owned_q user r.created_by)

/-- views.py `OwnedQuerysetMixin.get_queryset` as used by
`RecipeUpdateView` / `RecipeDeleteView`. -/
def recipeEditQueryset (db : DB) (user : UserId) : List Recipe :=
  db.recipes.filter (fun r => owned_q user r.created_by)

/-- GET parameters used by `DishListView.get_queryset`. -/
structure DishListParams where
  q : String
  active : Option String
deriving DecidableEq, Repr

/-- The `default_recipe__title__icontains` join lookup: true iff the dish's
default recipe exists in the table and its title contains `q`. -/
def dishDefaultRecipeTitleIcontains (db : DB) (d : Dish) (q : String) : Bool :=
  match d.default_recipe with
  | none => false
  | some rpk =>
      match db.recipes.find? (fun r => r.pk == rpk) with
      | none => false
      | some r => icontains r.title q

/-- views.py `DishListView.get_queryset` (annotation and ordering omitted). -/
def dishListQueryset (db : DB) (user : UserId) (p : DishListParams) : List Dish :=
  let qs := db.dishes.filter (fun d => owned_q user d.created_by)
  let q := p.q.trim
  let qs := if q ≠ "" then
      qs.filter (fun d =>
        icontains d.name q || icontains d.description q || dishDefaultRecipeTitleIcontains db d q)
    else qs
  if p.active == some "0" then qs.filter (fun d => !d.is_active) else qs

/-- views.py `DishDetailView.get_queryset`. -/
def dishDetailQueryset (db : DB) (user : UserId) : List Dish :=
  db.dishes.filter (fun d => owned_q user d.created_by)

/-- views.py `OwnedQuerysetMixin.get_queryset` as used by
`DishUpdateView` / `DishDeleteView`. -/
def dishEditQueryset (db : DB) (user : UserId) : List Dish :=
  db.dishes.filter (fun d => owned_q user d.created_by)

/-- GET parameters used by `CookSessionListView.get_queryset`. -/
structure CookSessionListParams where
  q : String
  when : Option String
  meal_type : Option String
  method : Option String
deriving DecidableEq, Repr

/-- The `dish__name__icontains` join lookup for sessions. -/
def sessionDishNameIcontains (db : DB) (s : CookSession) (q : String) : Bool :=
  match db.dishes.find? (fun d => d.pk == s.dish) with
  | none => false
  | some d => icontains d.name q

/-- The `recipe_used__title__icontains` join lookup for sessions. -/
def sessionRecipeTitleIcontains (db : DB) (s : CookSession) (q : String) : Bool :=
  match s.recipe_used with
  | none => false
  | some rpk =>
      match db.recipes.find? (fun r => r.pk == rpk) with
      | none => false
      | some r => icontains r.title q

/-- `meal_type` / `method` choice values as URL strings. -/
def mealTypeValue : MealType → String
  | .breakfast => "breakfast" | .lunch => "lunch" | .dinner => "dinner"
  | .snack => "snack" | .dessert => "dessert" | .other => "other"

/-- CookMethod choice values as URL strings. -/
def cookMethodValue : CookMethod → String
  | .stovetop => "stovetop" | .oven => "oven" | .grill => "grill"
  | .air_fryer => "air_fryer" | .microwave => "microwave"
  | .no_cook => "no_cook" | .other => "other"

/-- views.py `CookSessionListView.get_queryset` (ordering omitted);
`today` is `timezone.localdate()`. -/
def cookSessionListQueryset (db : DB) (user : UserId) (today : Int)
    (p : CookSessionListParams) : List CookSession :=
  let qs := db.sessions.filter (fun s => owned_q user s.created_by)
  let q := p.q.trim
  let qs := if q ≠ "" then
      qs.filter (fun s =>
        sessionDishNameIcontains db s q || sessionRecipeTitleIcontains db s q ||
          icontains s.summary q)
    else qs
  let qs :=
    if p.when = some "today" then qs.filter (fun s => s.cooked_on == today)
    else if p.when = some "week" then
      qs.filter (fun s => decide (today < s.cooked_on) && decide (s.cooked_on ≤ today + 7))
    else if p.when = some "month" then
      qs.filter (fun s => decide (today < s.cooked_on) && decide (s.cooked_on ≤ today + 30))
    else if p.when = some "past30" then
      qs.filter (fun s => decide (today - 30 ≤ s.cooked_on) && decide (s.cooked_on ≤ today))
    else qs
  let qs := match p.meal_type with
    | some meal => if meal ≠ "" then qs.filter (fun s => mealTypeValue s.meal_type == meal) else qs
    | none => qs
  match p.method with
  | some m => if m ≠ "" then qs.filter (fun s => cookMethodValue s.method == m) else qs
  | none => qs

/-- views.py `CookSessionDetailView.get_queryset`. -/
def cookSessionDetailQueryset (db : DB) (user : UserId) : List CookSession :=
  db.sessions.filter (fun s => owned_q user s.created_by)

/-- views.py `OwnedQuerysetMixin.get_queryset` as used by
`CookSessionUpdateView` / `CookSessionDeleteView`. -/
def cookSessionEditQueryset (db : DB) (user : UserId) : List CookSession :=
  db.sessions.filter (fun s => owned_q user s.created_by)

/-- views.py `CookResultDetailView.get_queryset`. -/
def cookResultDetailQueryset (db : DB) (user : UserId) : List CookResult :=
  db.results.filter (fun r => owned_q user r.created_by)

-- ----------------------------
-- Dashboard (views.py `DashboardView.get_context_data`)
-- ----------------------------

/-- views.py `Bucket` dataclass (the reverse-routed URL is omitted). -/
structure Bucket where
  label : String
  count : Nat
deriving DecidableEq, Repr

/-- `session_qs` of the dashboard: the user's ownership-filtered sessions. -/
def dashboardSessionQs (db : DB) (user : UserId) : List CookSession :=
  db.sessions.filter (fun s => owned_q user s.created_by)

/-- Dashboard bucket 1: `session_qs.filter(cooked_on=today)`. -/
def bucketTodaySessions (db : DB) (user : UserId) (today : Int) : List CookSession :=
  (dashboardSessionQs db user).filter (fun s => s.cooked_on == today)

/-- Dashboard bucket 2:
`session_qs.filter(cooked_on__gt=today, cooked_on__lte=week_from_now)`. -/
def bucketNext7Sessions (db : DB) (user : UserId) (today : Int) : List CookSession :=
  (dashboardSessionQs db user).filter
    (fun s => decide (today < s.cooked_on) && decide (s.cooked_on ≤ today + 7))

/-- Dashboard bucket 3:
`session_qs.filter(cooked_on__gt=today, cooked_on__lte=month_from_now)`. -/
def bucketNext30Sessions (db : DB) (user : UserId) (today : Int) : List CookSession :=
  (dashboardSessionQs db user).filter
    (fun s => decide (today < s.cooked_on) && decide (s.cooked_on ≤ today + 30))

/-- Dashboard bucket 4:
`session_qs.filter(cooked_on__gte=today - timedelta(days=30), cooked_on__lte=today)`. -/
def bucketPast30Sessions (db : DB) (user : UserId) (today : Int) : List CookSession :=
  (dashboardSessionQs db user).filter
    (fun s => decide (today - 30 ≤ s.cooked_on) && decide (s.cooked_on ≤ today))

/-- views.py: the dashboard's `ctx["session_buckets"]`. -/
def sessionBuckets (db : DB) (user : UserId) (today : Int) : List Bucket :=
  [ ⟨"Today", (bucketTodaySessions db user today).length⟩,
    ⟨"Next 7 days", (bucketNext7Sessions db user today).length⟩,
    ⟨"Next 30 days", (bucketNext30Sessions db user today).length⟩,
    ⟨"Past 30 days", (bucketPast30Sessions db user today).length⟩ ]

-- ----------------------------
-- Generic "attachments" UI (views.py)
-- ----------------------------

/-- views.py `ALLOWED_TARGET_MODELS`. -/
def ALLOWED_TARGET_MODELS (model_key : String) : Option TargetModel :=
  match model_key with
  | "recipe" => some .recipe
  | "dish" => some .dish
  | "cooksession" => some .cooksession
  | "cookresult" => some .cookresult
  | _ => none

/-- A resolved target row: its model, primary key and owner. -/
structure TargetObj where
  model : TargetModel
  pk : Nat
  created_by : Option UserId
deriving DecidableEq, Repr

/-- The rows of the table a target model key resolves to, projected to
(model, pk, created_by). -/
def targetRows (db : DB) : TargetModel → List TargetObj
  | .recipe => db.recipes.map (fun r => ⟨.recipe, r.pk, r.created_by⟩)
  | .dish => db.dishes.map (fun d => ⟨.dish, d.pk, d.created_by⟩)
  | .cooksession => db.sessions.map (fun s => ⟨.cooksession, s.pk, s.created_by⟩)
  | .cookresult => db.results.map (fun r => ⟨.cookresult, r.pk, r.created_by⟩)

/-- views.py `_get_target_or_404(user, model_key, pk)`:
resolve the key through the allow-list (404 if unknown), then
`get_object_or_404(model.objects.filter(owned_q(user)), pk=pk)`. -/
def get_target_or_404 (db : DB) (user : UserId) (model_key : String) (pk : Nat) :
    Except Http404Error TargetObj :=
  match ALLOWED_TARGET_MODELS model_key with
  | none => .error .unknownTargetModel
  | some m =>
      match (targetRows db m).find? (fun t => owned_q user t.created_by && t.pk == pk) with
      | none => .error .objectNotFound
      | some t => .ok t

/-- Fields of `NoteForTargetForm`. -/
structure NoteForm where
  title : String
  body : String
  is_pinned : Bool
deriving DecidableEq, Repr

/-- views.py `TargetNoteCreateView` (`TargetContextMixin.dispatch` then
`form_valid`): resolve the target or 404, bind content_type / object_id,
stamp `created_by` if absent, save. -/
def targetNoteCreate (db : DB) (user : UserId) (model_key : String) (pk : Nat)
    (newPk : Nat) (f : NoteForm) : Except Http404Error DB :=
  match get_target_or_404 db user model_key pk with
  | .error e => .error e
  | .ok target =>
      let obj : Note :=
        { pk := newPk, created_by := none, content_type := target.model,
          object_id := toString target.pk,
          title := f.title, body := f.body, is_pinned := f.is_pinned }
      let obj := if obj.created_by = none then { obj with created_by := some user } else obj
      .ok { db with notes := db.notes ++ [obj] }

/-- Fields of `ReferenceURLForTargetForm`. -/
structure ReferenceURLForm where
  kind : URLKind
  title : String
  url : String
  description : String
  sort_order : Nat
  is_primary : Bool
deriving DecidableEq, Repr

/-- views.py `TargetReferenceURLCreateView` (dispatch + `form_valid`). -/
def targetReferenceURLCreate (db : DB) (user : UserId) (model_key : String) (pk : Nat)
    (newPk : Nat) (f : ReferenceURLForm) : Except Http404Error DB :=
  match get_target_or_404 db user model_key pk with
  | .error e => .error e
  | .ok target =>
      let obj : ReferenceURL :=
        { pk := newPk, created_by := none, content_type := target.model,
          object_id := toString target.pk,
          kind := f.kind, title := f.title, url := f.url, description := f.description,
          sort_order := f.sort_order, is_primary := f.is_primary }
      let obj := if obj.created_by = none then { obj with created_by := some user } else obj
      .ok { db with urls := db.urls ++ [obj] }

/-- Fields of `TrackedImageForTargetForm`. -/
structure TrackedImageForm where
  image : String
  caption : String
  alt_text : String
  taken_at : Option Int
  sort_order : Nat
  is_cover : Bool
deriving DecidableEq, Repr

/-- views.py `TargetTrackedImageCreateView` (dispatch + `form_valid`);
`newUuid` is the freshly drawn `uuid4`. -/
def targetTrackedImageCreate (db : DB) (user : UserId) (model_key : String) (pk : Nat)
    (newPk newUuid : Nat) (f : TrackedImageForm) : Except Http404Error DB :=
  match get_target_or_404 db user model_key pk with
  | .error e => .error e
  | .ok target =>
      let obj : TrackedImage :=
        { pk := newPk, created_by := none, uuid := newUuid,
          content_type := target.model, object_id := toString target.pk,
          image := f.image, caption := f.caption, alt_text := f.alt_text,
          taken_at := f.taken_at, sort_order := f.sort_order, is_cover := f.is_cover }
      let obj := if obj.created_by = none then { obj with created_by := some user } else obj
      .ok { db with images := db.images ++ [obj] }

/-- Fields of `PDFDocumentForTargetForm`. -/
structure PDFDocumentForm where
  kind : PDFKind
  title : String
  description : String
  pdf : Option String
  page_count : Option Nat
  sort_order : Nat
deriving DecidableEq, Repr

/-- views.py `TargetPDFDocumentCreateView` (dispatch + `form_valid`);
`obj.save()` runs the overridden `PDFDocument.save`. -/
def targetPDFDocumentCreate (db : DB) (user : UserId) (model_key : String) (pk : Nat)
    (newPk newUuid : Nat) (f : PDFDocumentForm) : Except Http404Error DB :=
  match get_target_or_404 db user model_key pk with
  | .error e => .error e
  | .ok target =>
      let obj : PDFDocument :=
        { pk := newPk, created_by := none, uuid := newUuid,
          content_type := target.model, object_id := toString target.pk,
          kind := f.kind, title := f.title, description := f.description,
          pdf := f.pdf, original_filename := "",
          page_count := f.page_count, sort_order := f.sort_order }
      let obj := if obj.created_by = none then { obj with created_by := some user } else obj
      .ok { db with pdfs := db.pdfs ++ [pdfDocumentSave obj] }

/-- The state after a note-create request: a 404 aborts before any save. -/
def applyTargetNoteCreate (db : DB) (user : UserId) (model_key : String) (pk : Nat)
    (newPk : Nat) (f : NoteForm) : DB :=
  match targetNoteCreate db user model_key pk newPk f with
  | .ok db' => db'
  | .error _ => db

/-- The state after a URL-create request: a 404 aborts before any save. -/
def applyTargetReferenceURLCreate (db : DB) (user : UserId) (model_key : String) (pk : Nat)
    (newPk : Nat) (f : ReferenceURLForm) : DB :=
  match targetReferenceURLCreate db user model_key pk newPk f with
  | .ok db' => db'
  | .error _ => db

/-- The state after an image-create request: a 404 aborts before any save. -/
def applyTargetTrackedImageCreate (db : DB) (user : UserId) (model_key : String) (pk : Nat)
    (newPk newUuid : Nat) (f : TrackedImageForm) : DB :=
  match targetTrackedImageCreate db user model_key pk newPk newUuid f with
  | .ok db' => db'
  | .error _ => db

/-- The state after a PDF-create request: a 404 aborts before any save. -/
def applyTargetPDFDocumentCreate (db : DB) (user : UserId) (model_key : String) (pk : Nat)
    (newPk newUuid : Nat) (f : PDFDocumentForm) : DB :=
  match targetPDFDocumentCreate db user model_key pk newPk newUuid f with
  | .ok db' => db'
  | .error _ => db

/-- views.py `TargetDetailView.get_context_data`: the notes listed for a
target, filtered by (content_type, object_id) and the ownership predicate. -/
def targetNotesQueryset (db : DB) (user : UserId) (ct : TargetModel) (oid : String) :
    List Note :=
  (db.notes.filter (fun n => n.content_type == ct && n.object_id == oid)).filter
    (fun n => owned_q user n.created_by)

/-- `TargetDetailView`: the reference URLs listed for a target. -/
def targetURLsQueryset (db : DB) (user : UserId) (ct : TargetModel) (oid : String) :
    List ReferenceURL :=
  (db.urls.filter (fun u => u.content_type == ct && u.object_id == oid)).filter
    (fun u => owned_q user u.created_by)

/-- `TargetDetailView`: the images listed for a target. -/
def targetImagesQueryset (db : DB) (user : UserId) (ct : TargetModel) (oid : String) :
    List TrackedImage :=
  (db.images.filter (fun i => i.content_type == ct && i.object_id == oid)).filter
    (fun i => owned_q user i.created_by)

/-- `TargetDetailView`: the PDFs listed for a target. -/
def targetPDFsQueryset (db : DB) (user : UserId) (ct : TargetModel) (oid : String) :
    List PDFDocument :=
  (db.pdfs.filter (fun p => p.content_type == ct && p.object_id == oid)).filter
    (fun p => owned_q user p.created_by)

-- ----------------------------
-- CookResult get-or-create (views.py `CookResultCreateUpdateView`)
-- ----------------------------

/-- models.py defaults of a `CookResult` created by
`CookResult.objects.get_or_create(cook_session=…, defaults={"created_by": user})`:
model-field defaults plus the `defaults` dict. -/
def defaultCookResult (newPk : Nat) (sessionPk : Nat) (user : UserId) : CookResult :=
  { pk := newPk, created_by := some user, cook_session := sessionPk,
    outcome := .experiment,
    overall_rating := none, taste_rating := none,
    texture_rating := none, appearance_rating := none,
    would_make_again := false,
    what_worked := "", what_to_change := "", next_time_plan := "" }

/-- `CookResult.objects.get_or_create(cook_session=cook_session,
defaults={"created_by": request.user})`. -/
def cookResultGetOrCreate (db : DB) (sessionPk : Nat) (user : UserId) (newPk : Nat) :
    CookResult × DB :=
  match db.results.find? (fun r => r.cook_session == sessionPk) with
  | some r => (r, db)
  | none =>
      let obj := defaultCookResult newPk sessionPk user
      (obj, { db with results := db.results ++ [obj] })

/-- views.py `CookResultCreateUpdateView.dispatch`: look the session up in the
ownership-filtered queryset (404 if absent), then get-or-create its result;
`get_object` returns that result to the edit form. -/
def cookResultEditDispatch (db : DB) (user : UserId) (session_pk : Nat) (newPk : Nat) :
    Except Http404Error (CookResult × DB) :=
  match (db.sessions.filter (fun s => owned_q user s.created_by)).find?
      (fun s => s.pk == session_pk) with
  | none => .error .objectNotFound
  | some _ => .ok (cookResultGetOrCreate db session_pk user newPk)

-- ----------------------------
-- Deletion (views.py delete views + models.py on_delete rules)
-- ----------------------------

/-- Errors a delete request can end in: a 404 (object not in the
ownership-filtered queryset) or the datastore's `ProtectedError`. -/
inductive DeleteError
  | notFound
  | protectedErr
deriving DecidableEq, Repr

/-- views.py `DishDeleteView`: fetch the dish from the ownership-filtered
queryset, then delete; `CookSession.dish` is `on_delete=PROTECT`, so the
delete raises `ProtectedError` while referencing sessions exist. -/
def dishDelete (db : DB) (user : UserId) (pk : Nat) : Except DeleteError DB :=
  match (db.dishes.filter (fun d => owned_q user d.created_by)).find?
      (fun d => d.pk == pk) with
  | none => .error .notFound
  | some d =>
      if db.sessions.any (fun s => s.dish == d.pk) then .error .protectedErr
      else .ok { db with dishes := db.dishes.filter (fun e => !(e.pk == d.pk)) }

/-- The state after a dish-delete request: errors roll back / abort. -/
def applyDishDelete (db : DB) (user : UserId) (pk : Nat) : DB :=
  match dishDelete db user pk with
  | .ok db' => db'
  | .error _ => db

/-- `Dish.default_recipe` is `on_delete=SET_NULL`: nullify the reference when
recipe `pk` is deleted. -/
def nullifyDishRecipeRef (pk : Nat) (d : Dish) : Dish :=
  if d.default_recipe == some pk then { d with default_recipe := none } else d

/-- `CookSession.recipe_used` is `on_delete=SET_NULL`. -/
def nullifySessionRecipeRef (pk : Nat) (s : CookSession) : CookSession :=
  if s.recipe_used == some pk then { s with recipe_used := none } else s

/-- views.py `RecipeDeleteView`: fetch the recipe from the ownership-filtered
queryset, then delete; both FKs pointing at Recipe are `SET_NULL`, so the
delete always succeeds and nullifies the references. -/
def recipeDelete (db : DB) (user : UserId) (pk : Nat) : Except DeleteError DB :=
  match (db.recipes.filter (fun r => owned_q user r.created_by)).find?
      (fun r => r.pk == pk) with
  | none => .error .notFound
  | some r =>
      .ok { db with
        recipes := db.recipes.filter (fun e => !(e.pk == r.pk)),
        dishes := db.dishes.map (nullifyDishRecipeRef r.pk),
        sessions := db.sessions.map (nullifySessionRecipeRef r.pk) }

-- ----------------------------
-- Updates through `OwnedQuerysetMixin.form_valid`
-- ----------------------------

/-- Fields of `RecipeForm` (forms.py). -/
structure RecipeFormData where
  title : String
  description : String
  author : String
  ingredients : String
  instructions : String
  yield_text : String
  prep_minutes : Option Nat
  cook_minutes : Option Nat
  is_favorite : Bool
  is_active : Bool
deriving DecidableEq, Repr

/-- `form.save(commit=False)` on a bound `RecipeForm`: the instance with the
form's fields applied (fields outside the form, e.g. `created_by`, untouched). -/
def applyRecipeForm (f : RecipeFormData) (r : Recipe) : Recipe :=
  { r with
    title := f.title, description := f.description, author := f.author,
    ingredients := f.ingredients, instructions := f.instructions,
    yield_text := f.yield_text, prep_minutes := f.prep_minutes,
    cook_minutes := f.cook_minutes, is_favorite := f.is_favorite,
    is_active := f.is_active }

/-- views.py `RecipeUpdateView` (`OwnedQuerysetMixin`): `get_object` from the
ownership-filtered queryset (404 otherwise), apply the form, then
`form_valid` stamps `created_by` when it is null and saves. -/
def recipeUpdate (db : DB) (user : UserId) (pk : Nat) (f : RecipeFormData) :
    Except Http404Error DB :=
  match (recipeEditQueryset db user).find? (fun r => r.pk == pk) with
  | none => .error .objectNotFound
  | some r =>
      let obj := applyRecipeForm f r
      let obj := if obj.created_by = none then { obj with created_by := some user } else obj
      .ok { db with recipes := db.recipes.map (fun e => if e.pk == pk then obj else e) }

/-- Fields of `DishForm` (forms.py). -/
structure DishFormData where
  name : String
  description : String
  default_recipe : Option Nat
  is_active : Bool
deriving DecidableEq, Repr

/-- `form.save(commit=False)` on a bound `DishForm`. -/
def applyDishForm (f : DishFormData) (d : Dish) : Dish :=
  { d with
    name := f.name, description := f.description,
    default_recipe := f.default_recipe, is_active := f.is_active }

/-- views.py `DishUpdateView` (`OwnedQuerysetMixin`). -/
def dishUpdate (db : DB) (user : UserId) (pk : Nat) (f : DishFormData) :
    Except Http404Error DB :=
  match (dishEditQueryset db user).find? (fun d => d.pk == pk) with
  | none => .error .objectNotFound
  | some d =>
      let obj := applyDishForm f d
      let obj := if obj.created_by = none then { obj with created_by := some user } else obj
      .ok { db with dishes := db.dishes.map (fun e => if e.pk == pk then obj else e) }

/-- Fields of `CookSessionForm` (forms.py). -/
structure CookSessionFormData where
  dish : Nat
  recipe_used : Option Nat
  cooked_on : Int
  meal_type : MealType
  method : CookMethod
  servings_made : Option Rat
  duration_minutes : Option Nat
  summary : String
  is_active : Bool
deriving DecidableEq, Repr

/-- `form.save(commit=False)` on a bound `CookSessionForm`. -/
def applyCookSessionForm (f : CookSessionFormData) (s : CookSession) : CookSession :=
  { s with
    dish := f.dish, recipe_used := f.recipe_used, cooked_on := f.cooked_on,
    meal_type := f.meal_type, method := f.method, servings_made := f.servings_made,
    duration_minutes := f.duration_minutes, summary := f.summary,
    is_active := f.is_active }

/-- views.py `CookSessionUpdateView` (`OwnedQuerysetMixin`). -/
def cookSessionUpdate (db : DB) (user : UserId) (pk : Nat) (f : CookSessionFormData) :
    Except Http404Error DB :=
  match (cookSessionEditQueryset db user).find? (fun s => s.pk == pk) with
  | none => .error .objectNotFound
  | some s =>
      let obj := applyCookSessionForm f s
      let obj := if obj.created_by = none then { obj with created_by := some user } else obj
      .ok { db with sessions := db.sessions.map (fun e => if e.pk == pk then obj else e) }

-- ----------------------------
-- Dish uniqueness (models.py `uniq_dish_per_owner_name`)
-- ----------------------------

/-- Datastore integrity errors. -/
inductive IntegrityError
  | uniqueViolation
deriving DecidableEq, Repr

/-- Whether two dish rows collide under the UNIQUE constraint on
`(created_by, name)`: SQL treats NULLs as distinct, so rows only collide
when both owners are non-null and equal. -/
def dishConflicts (a b : Dish) : Bool :=
  a.name == b.name &&
    match a.created_by, b.created_by with
    | some u, some v => u == v
    | _, _ => false

/-- Inserting a dish row under the `uniq_dish_per_owner_name` constraint:
refused with an `IntegrityError` on a collision, appended otherwise. -/
def dishInsert (db : DB) (d : Dish) : Except IntegrityError DB :=
  if db.dishes.any (fun e => dishConflicts e d) then .error .uniqueViolation
  else .ok { db with dishes := db.dishes ++ [d] }

-- ----------------------------
-- Helper lemmas
-- ----------------------------

lemma owned_q_some_iff (u v : UserId) : owned_q u (some v) = true ↔ v = u := by
  simp [owned_q]

lemma owned_q_none_eq (u : UserId) : owned_q u none = true := rfl

lemma owned_q_eq_true_iff (u : UserId) (c : Option UserId) :
    owned_q u c = true ↔ (c = some u ∨ c = none) := by
  cases c with
  | none => simp [owned_q]
  | some v => simp [owned_q]

lemma owned_q_some_of_ne {a b : UserId} (h : a ≠ b) : owned_q b (some a) = false := by
  cases hq : owned_q b (some a) with
  | false => rfl
  | true => exact absurd ((owned_q_some_iff b a).mp hq) h

lemma mem_of_ite_filter {α : Type} {x : α} {c : Prop} [Decidable c] {f : α → Bool}
    {qs : List α} (h : x ∈ (if c then qs.filter f else qs)) : x ∈ qs := by
  split at h
  · exact List.mem_of_mem_filter h
  · exact h

lemma mem_of_ite_filter4 {α : Type} {x : α} {c₁ c₂ c₃ c₄ : Prop}
    [Decidable c₁] [Decidable c₂] [Decidable c₃] [Decidable c₄]
    {f₁ f₂ f₃ f₄ : α → Bool} {qs : List α}
    (h : x ∈ (if c₁ then qs.filter f₁ else if c₂ then qs.filter f₂
      else if c₃ then qs.filter f₃ else if c₄ then qs.filter f₄ else qs)) : x ∈ qs := by
  repeat' split at h
  all_goals first
    | exact List.mem_of_mem_filter h
    | exact h

lemma mem_of_match_opt_filter {α : Type} {x : α} {o : Option String}
    {f : String → α → Bool} {qs : List α}
    (h : x ∈ (match o with
      | some m => if m ≠ "" then qs.filter (f m) else qs
      | none => qs)) : x ∈ qs := by
  match o with
  | none => exact h
  | some m => exact mem_of_ite_filter h

lemma owned_of_mem_recipeList {db : DB} {u : UserId} {p : RecipeListParams} {r : Recipe}
    (h : r ∈ recipeListQueryset db u p) : owned_q u r.created_by = true := by
  simp only [recipeListQueryset] at h
  replace h := mem_of_ite_filter h
  replace h := mem_of_ite_filter h
  replace h := mem_of_ite_filter h
  exact (List.mem_filter.mp h).2

lemma owned_of_mem_dishList {db : DB} {u : UserId} {p : DishListParams} {d : Dish}
    (h : d ∈ dishListQueryset db u p) : owned_q u d.created_by = true := by
  simp only [dishListQueryset] at h
  replace h := mem_of_ite_filter h
  replace h := mem_of_ite_filter h
  exact (List.mem_filter.mp h).2

lemma owned_of_mem_sessionList {db : DB} {u : UserId} {today : Int}
    {p : CookSessionListParams} {s : CookSession}
    (h : s ∈ cookSessionListQueryset db u today p) : owned_q u s.created_by = true := by
  simp only [cookSessionListQueryset] at h
  replace h := mem_of_match_opt_filter h
  replace h := mem_of_match_opt_filter h
  replace h := mem_of_ite_filter4 h
  replace h := mem_of_ite_filter h
  exact (List.mem_filter.mp h).2

lemma filter_find?_isSome {α : Type} {l : List α} {f g : α → Bool} {x : α}
    (hx : x ∈ l) (hf : f x = true) (hg : g x = true) :
    ∃ y, (l.filter f).find? g = some y := by
  have hmem : x ∈ l.filter f := List.mem_filter.mpr ⟨hx, hf⟩
  have hsome := (List.find?_isSome (p := g)).mpr ⟨x, hmem, hg⟩
  exact Option.isSome_iff_exists.mp hsome

lemma find?_eq_of_countP_le_one {α : Type} {p : α → Bool} :
    ∀ {l : List α} {a : α}, a ∈ l → p a = true → l.countP p ≤ 1 → l.find? p = some a := by
  intro l
  induction l with
  | nil => intro a h; cases h
  | cons b t ih =>
      intro a hmem hpa hcount
      by_cases hb : p b = true
      · rw [List.find?_cons_of_pos _ hb]
        rcases List.mem_cons.mp hmem with rfl | hat
        · rfl
        · exfalso
          have h1 : 0 < t.countP p := List.countP_pos_iff.mpr ⟨a, hat, hpa⟩
          have h2 : (b :: t).countP p = t.countP p + 1 := List.countP_cons_of_pos _ _ hb
          omega
      · rw [List.find?_cons_of_neg _ hb]
        rcases List.mem_cons.mp hmem with rfl | hat
        · exact absurd hpa hb
        · have h2 : (b :: t).countP p = t.countP p := List.countP_cons_of_neg _ _ hb
          exact ih hat hpa (by omega)

-- ----------------------------
-- Concrete example data (shared by the witness theorems)
-- ----------------------------

/-- Example: a recipe owned by user 0. -/
def exRecipe1 : Recipe :=
  { pk := 1, created_by := some 0, title := "Oven Bacon", description := "",
    author := "", ingredients := "", instructions := "", yield_text := "",
    prep_minutes := none, cook_minutes := none, is_favorite := false, is_active := true }

/-- Example: an unowned (shared) recipe. -/
def exRecipe2 : Recipe :=
  { pk := 2, created_by := none, title := "Pan Eggs", description := "",
    author := "", ingredients := "", instructions := "", yield_text := "",
    prep_minutes := none, cook_minutes := none, is_favorite := false, is_active := true }

/-- Example: a dish owned by user 0, defaulting to recipe 1. -/
def exDish1 : Dish :=
  { pk := 1, created_by := some 0, name := "Oven Bacon", description := "",
    default_recipe := some 1, is_active := true }

/-- Example: a cook session of dish 1 owned by user 0. -/
def exSession1 : CookSession :=
  { pk := 1, created_by := some 0, dish := 1, recipe_used := some 1,
    cooked_on := 100, meal_type := .other, method := .other,
    servings_made := none, duration_minutes := none, summary := "", is_active := true }

/-- Example database shared by the witnesses. -/
def exDB : DB :=
  { recipes := [exRecipe1, exRecipe2], dishes := [exDish1],
    sessions := [exSession1], results := [],
    notes := [], images := [], urls := [], pdfs := [] }

-- ----------------------------
-- C1
-- ----------------------------

/-- C1: for distinct users A ≠ B, every Recipe / Dish / CookSession /
CookResult / attachment row created by A is absent from B's list, detail and
edit querysets, and every null-owned row is included in every user's
ownership-filtered queryset. -/
theorem C1_ownership_isolation (db : DB) (a b : UserId) (hab : a ≠ b) :
    ((∀ p r, r.created_by = some a → r ∉ recipeListQueryset db b p) ∧
     (∀ r, r.created_by = some a → r ∉ recipeDetailQueryset db b) ∧
     (∀ r, r.created_by = some a → r ∉ recipeEditQueryset db b) ∧
     (∀ p d, d.created_by = some a → d ∉ dishListQueryset db b p) ∧
     (∀ d, d.created_by = some a → d ∉ dishDetailQueryset db b) ∧
     (∀ d, d.created_by = some a → d ∉ dishEditQueryset db b) ∧
     (∀ (today : Int) p s, s.created_by = some a →
        s ∉ cookSessionListQueryset db b today p) ∧
     (∀ s, s.created_by = some a → s ∉ cookSessionDetailQueryset db b) ∧
     (∀ s, s.created_by = some a → s ∉ cookSessionEditQueryset db b) ∧
     (∀ r, r.created_by = some a → r ∉ cookResultDetailQueryset db b) ∧
     (∀ ct oid n, n.created_by = some a → n ∉ targetNotesQueryset db b ct oid) ∧
     (∀ ct oid w, w.created_by = some a → w ∉ targetURLsQueryset db b ct oid) ∧
     (∀ ct oid i, i.created_by = some a → i ∉ targetImagesQueryset db b ct oid) ∧
     (∀ ct oid g, g.created_by = some a → g ∉ targetPDFsQueryset db b ct oid)) ∧
    ((∀ u r, r.created_by = none → r ∈ db.recipes → r ∈ recipeDetailQueryset db u) ∧
     (∀ u d, d.created_by = none → d ∈ db.dishes → d ∈ dishDetailQueryset db u) ∧
     (∀ u s, s.created_by = none → s ∈ db.sessions → s ∈ cookSessionDetailQueryset db u) ∧
     (∀ u r, r.created_by = none → r ∈ db.results → r ∈ cookResultDetailQueryset db u) ∧
     (∀ u n, n.created_by = none → n ∈ db.notes →
        n ∈ targetNotesQueryset db u n.content_type n.object_id) ∧
     (∀ u w, w.created_by = none → w ∈ db.urls →
        w ∈ targetURLsQueryset db u w.content_type w.object_id) ∧
     (∀ u i, i.created_by = none → i ∈ db.images →
        i ∈ targetImagesQueryset db u i.content_type i.object_id) ∧
     (∀ u g, g.created_by = none → g ∈ db.pdfs →
        g ∈ targetPDFsQueryset db u g.content_type g.object_id)) := by
  constructor
  · refine ⟨?_, ?_, ?_, ?_, ?_, ?_, ?_, ?_, ?_, ?_, ?_, ?_, ?_, ?_⟩
    · intro p r hcb hmem
      have hq := owned_of_mem_recipeList hmem
      rw [hcb, owned_q_some_of_ne hab] at hq
      simp at hq
    · intro r hcb hmem
      have hq := (List.mem_filter.mp hmem).2
      rw [hcb, owned_q_some_of_ne hab] at hq
      simp at hq
    · intro r hcb hmem
      have hq := (List.mem_filter.mp hmem).2
      rw [hcb, owned_q_some_of_ne hab] at hq
      simp at hq
    · intro p d hcb hmem
      have hq := owned_of_mem_dishList hmem
      rw [hcb, owned_q_some_of_ne hab] at hq
      simp at hq
    · intro d hcb hmem
      have hq := (List.mem_filter.mp hmem).2
      rw [hcb, owned_q_some_of_ne hab] at hq
      simp at hq
    · intro d hcb hmem
      have hq := (List.mem_filter.mp hmem).2
      rw [hcb, owned_q_some_of_ne hab] at hq
      simp at hq
    · intro today p s hcb hmem
      have hq := owned_of_mem_sessionList hmem
      rw [hcb, owned_q_some_of_ne hab] at hq
      simp at hq
    · intro s hcb hmem
      have hq := (List.mem_filter.mp hmem).2
      rw [hcb, owned_q_some_of_ne hab] at hq
      simp at hq
    · intro s hcb hmem
      have hq := (List.mem_filter.mp hmem).2
      rw [hcb, owned_q_some_of_ne hab] at hq
      simp at hq
    · intro r hcb hmem
      have hq := (List.mem_filter.mp hmem).2
      rw [hcb, owned_q_some_of_ne hab] at hq
      simp at hq
    · intro ct oid n hcb hmem
      have hq := (List.mem_filter.mp hmem).2
      rw [hcb, owned_q_some_of_ne hab] at hq
      simp at hq
    · intro ct oid w hcb hmem
      have hq := (List.mem_filter.mp hmem).2
      rw [hcb, owned_q_some_of_ne hab] at hq
      simp at hq
    · intro ct oid i hcb hmem
      have hq := (List.mem_filter.mp hmem).2
      rw [hcb, owned_q_some_of_ne hab] at hq
      simp at hq
    · intro ct oid g hcb hmem
      have hq := (List.mem_filter.mp hmem).2
      rw [hcb, owned_q_some_of_ne hab] at hq
      simp at hq
  · refine ⟨?_, ?_, ?_, ?_, ?_, ?_, ?_, ?_⟩
    · intro u r hn hm
      exact List.mem_filter.mpr ⟨hm, by rw [hn]; rfl⟩
    · intro u d hn hm
      exact List.mem_filter.mpr ⟨hm, by rw [hn]; rfl⟩
    · intro u s hn hm
      exact List.mem_filter.mpr ⟨hm, by rw [hn]; rfl⟩
    · intro u r hn hm
      exact List.mem_filter.mpr ⟨hm, by rw [hn]; rfl⟩
    · intro u n hn hm
      exact List.mem_filter.mpr ⟨List.mem_filter.mpr ⟨hm, by simp⟩, by rw [hn]; rfl⟩
    · intro u w hn hm
      exact List.mem_filter.mpr ⟨List.mem_filter.mpr ⟨hm, by simp⟩, by rw [hn]; rfl⟩
    · intro u i hn hm
      exact List.mem_filter.mpr ⟨List.mem_filter.mpr ⟨hm, by simp⟩, by rw [hn]; rfl⟩
    · intro u g hn hm
      exact List.mem_filter.mpr ⟨List.mem_filter.mpr ⟨hm, by simp⟩, by rw [hn]; rfl⟩

/-- C1 witness: in the concrete database, user 1 does not see user 0's
recipe in the detail queryset, while the unowned recipe is visible. -/
theorem C1_ownership_isolation_witness :
    ((0 : UserId) ≠ 1) ∧
    exRecipe1 ∉ recipeDetailQueryset exDB 1 ∧
    exRecipe2 ∈ recipeDetailQueryset exDB 1 :=
  ⟨by decide,
   (C1_ownership_isolation exDB 0 1 (by decide)).1.2.1 exRecipe1 rfl,
   (C1_ownership_isolation exDB 0 1 (by decide)).2.1 1 exRecipe2 rfl
     (by simp [exDB])⟩

-- ----------------------------
-- C2
-- ----------------------------

/-- Example form data: a note. -/
def exNoteForm : NoteForm := { title := "Note", body := "Hello", is_pinned := false }

/-- Example form data: a reference URL. -/
def exURLForm : ReferenceURLForm :=
  { kind := .other, title := "", url := "https://example.com", description := "",
    sort_order := 0, is_primary := false }

/-- Example form data: a tracked image. -/
def exImageForm : TrackedImageForm :=
  { image := "img.png", caption := "", alt_text := "", taken_at := none,
    sort_order := 0, is_cover := false }

/-- Example form data: a PDF document. -/
def exPDFForm : PDFDocumentForm :=
  { kind := .other, title := "", description := "",
    pdf := some "cooking-companion/pdfs/77/card.pdf", page_count := none, sort_order := 0 }

/-- C2: if the model key is outside the allow-list, or no row of the resolved
model with the given pk is visible to the requester (absent, or owned by a
third user), every attachment "create for target" operation returns a 404
error and leaves the database unchanged. -/
theorem C2_attachment_create_not_found (db : DB) (user : UserId) (model_key : String)
    (pk newPk newUuid : Nat) (fN : NoteForm) (fU : ReferenceURLForm)
    (fI : TrackedImageForm) (fP : PDFDocumentForm)
    (hguard : match ALLOWED_TARGET_MODELS model_key with
      | none => True
      | some m => ∀ t ∈ targetRows db m, t.pk = pk →
          ¬(t.created_by = some user ∨ t.created_by = none)) :
    (∃ e, get_target_or_404 db user model_key pk = .error e) ∧
    (∃ e, targetNoteCreate db user model_key pk newPk fN = .error e) ∧
    (∃ e, targetReferenceURLCreate db user model_key pk newPk fU = .error e) ∧
    (∃ e, targetTrackedImageCreate db user model_key pk newPk newUuid fI = .error e) ∧
    (∃ e, targetPDFDocumentCreate db user model_key pk newPk newUuid fP = .error e) ∧
    applyTargetNoteCreate db user model_key pk newPk fN = db ∧
    applyTargetReferenceURLCreate db user model_key pk newPk fU = db ∧
    applyTargetTrackedImageCreate db user model_key pk newPk newUuid fI = db ∧
    applyTargetPDFDocumentCreate db user model_key pk newPk newUuid fP = db := by
  have hcore : ∃ e, get_target_or_404 db user model_key pk = .error e := by
    unfold get_target_or_404
    cases hm : ALLOWED_TARGET_MODELS model_key with
    | none => exact ⟨_, rfl⟩
    | some m =>
        simp only [hm] at hguard
        have hfind : (targetRows db m).find?
            (fun t => owned_q user t.created_by && t.pk == pk) = none := by
          rw [List.find?_eq_none]
          intro t ht
          simp only [Bool.and_eq_true, beq_iff_eq, not_and]
          intro how hpk
          exact hguard t ht hpk ((owned_q_eq_true_iff _ _).mp how)
        simp only [hfind]
        exact ⟨_, rfl⟩
  obtain ⟨e, he⟩ := hcore
  have hN : targetNoteCreate db user model_key pk newPk fN = .error e := by
    unfold targetNoteCreate; rw [he]
  have hU : targetReferenceURLCreate db user model_key pk newPk fU = .error e := by
    unfold targetReferenceURLCreate; rw [he]
  have hI : targetTrackedImageCreate db user model_key pk newPk newUuid fI = .error e := by
    unfold targetTrackedImageCreate; rw [he]
  have hP : targetPDFDocumentCreate db user model_key pk newPk newUuid fP = .error e := by
    unfold targetPDFDocumentCreate; rw [he]
  refine ⟨⟨e, he⟩, ⟨e, hN⟩, ⟨e, hU⟩, ⟨e, hI⟩, ⟨e, hP⟩, ?_, ?_, ?_, ?_⟩
  · unfold applyTargetNoteCreate; rw [hN]
  · unfold applyTargetReferenceURLCreate; rw [hU]
  · unfold applyTargetTrackedImageCreate; rw [hI]
  · unfold applyTargetPDFDocumentCreate; rw [hP]

/-- C2 witness: an unrecognised model key ("bogus") leaves the concrete
database unchanged for all four attachment kinds. -/
theorem C2_attachment_create_not_found_witness :
    applyTargetNoteCreate exDB 0 "bogus" 1 7 exNoteForm = exDB ∧
    applyTargetReferenceURLCreate exDB 0 "bogus" 1 7 exURLForm = exDB ∧
    applyTargetTrackedImageCreate exDB 0 "bogus" 1 7 9 exImageForm = exDB ∧
    applyTargetPDFDocumentCreate exDB 0 "bogus" 1 7 9 exPDFForm = exDB := by
  have h := C2_attachment_create_not_found exDB 0 "bogus" 1 7 9
    exNoteForm exURLForm exImageForm exPDFForm (by trivial)
  exact ⟨h.2.2.2.2.2.1, h.2.2.2.2.2.2.1, h.2.2.2.2.2.2.2.1, h.2.2.2.2.2.2.2.2⟩

-- ----------------------------
-- C3
-- ----------------------------

/-- C3: for a session visible to the requester, the result-edit endpoint
succeeds, afterwards exactly one CookResult row exists for the session, a
repeated invocation returns the same result and state, and when no result
existed the created one carries the default values (all four ratings empty,
outcome = experiment). -/
theorem C3_result_get_or_create (db : DB) (user : UserId) (spk newPk newPk2 : Nat)
    (hvis : ∃ s ∈ db.sessions, s.pk = spk ∧ owned_q user s.created_by = true)
    (hinv : db.results.countP (fun r => r.cook_session == spk) ≤ 1) :
    ∃ res db', cookResultEditDispatch db user spk newPk = .ok (res, db') ∧
      db'.results.countP (fun r => r.cook_session == spk) = 1 ∧
      cookResultEditDispatch db' user spk newPk2 = .ok (res, db') ∧
      (db.results.countP (fun r => r.cook_session == spk) = 0 →
        (res.overall_rating = none ∧ res.taste_rating = none ∧
         res.texture_rating = none ∧ res.appearance_rating = none ∧
         res.outcome = .experiment)) := by
  have hsfind : ∃ s', (db.sessions.filter (fun s => owned_q user s.created_by)).find?
      (fun s => s.pk == spk) = some s' := by
    obtain ⟨s, hs, hpk, hq⟩ := hvis
    exact filter_find?_isSome hs hq (by simp [hpk])
  obtain ⟨s', hs'⟩ := hsfind
  cases hres : db.results.find? (fun r => r.cook_session == spk) with
  | some r =>
      have hmem := List.mem_of_find?_eq_some hres
      have hpred := List.find?_some hres
      have hpos : 0 < db.results.countP (fun x => x.cook_session == spk) :=
        List.countP_pos_iff.mpr ⟨r, hmem, hpred⟩
      refine ⟨r, db, ?_, by omega, ?_, ?_⟩
      · unfold cookResultEditDispatch cookResultGetOrCreate
        rw [hs', hres]
      · unfold cookResultEditDispatch cookResultGetOrCreate
        rw [hs', hres]
      · intro h0
        exact absurd h0 (by omega)
  | none =>
      have hzero : db.results.countP (fun x => x.cook_session == spk) = 0 :=
        List.countP_eq_zero.mpr (fun x hx => List.find?_eq_none.mp hres x hx)
      refine ⟨defaultCookResult newPk spk user,
        { db with results := db.results ++ [defaultCookResult newPk spk user] },
        ?_, ?_, ?_, ?_⟩
      · unfold cookResultEditDispatch cookResultGetOrCreate
        rw [hs', hres]
      · simp only [List.countP_append, hzero, Nat.zero_add]
        simp [defaultCookResult, List.countP_cons]
      · unfold cookResultEditDispatch cookResultGetOrCreate
        rw [show ({ db with results := db.results ++ [defaultCookResult newPk spk user] } :
          DB).sessions = db.sessions from rfl, hs']
        rw [show ({ db with results := db.results ++ [defaultCookResult newPk spk user] } :
          DB).results = db.results ++ [defaultCookResult newPk spk user] from rfl]
        rw [List.find?_append, hres]
        simp [defaultCookResult]
      · intro _
        exact ⟨rfl, rfl, rfl, rfl, rfl⟩

/-- C3 witness: in the concrete database (no results yet), editing the result
of session 1 as user 0 creates exactly one default result and is idempotent. -/
theorem C3_result_get_or_create_witness :
    ∃ res db', cookResultEditDispatch exDB 0 1 5 = .ok (res, db') ∧
      db'.results.countP (fun r => r.cook_session == 1) = 1 ∧
      cookResultEditDispatch db' 0 1 6 = .ok (res, db') ∧
      (exDB.results.countP (fun r => r.cook_session == 1) = 0 →
        (res.overall_rating = none ∧ res.taste_rating = none ∧
         res.texture_rating = none ∧ res.appearance_rating = none ∧
         res.outcome = .experiment)) :=
  C3_result_get_or_create exDB 0 1 5 6
    ⟨exSession1, by simp [exDB], by decide, by decide⟩ (by decide)

-- ----------------------------
-- C10
-- ----------------------------

/-- Example: a CookResult for session 1 owned by user 2 (not the requester). -/
def exResult2 : CookResult :=
  { pk := 1, created_by := some 2, cook_session := 1, outcome := .good,
    overall_rating := some 7, taste_rating := none, texture_rating := none,
    appearance_rating := none, would_make_again := true,
    what_worked := "", what_to_change := "", next_time_plan := "" }

/-- Example database for C10: session 1 (user 0) with a result of user 2. -/
def exDB10 : DB := { exDB with results := [exResult2] }

/-- C10: the result-edit endpoint checks ownership only on the parent
session: for a session visible to the requester, it returns the session's
existing CookResult for editing even when that result is owned by a
different user (and hence outside the requester's ownership predicate). -/
theorem C10_result_edit_ignores_result_owner
    (db : DB) (user other : UserId) (spk newPk : Nat) (s : CookSession) (res : CookResult)
    (hs : s ∈ db.sessions) (hspk : s.pk = spk) (hsv : owned_q user s.created_by = true)
    (hres : res ∈ db.results) (hrs : res.cook_session = spk)
    (hro : res.created_by = some other) (hne : other ≠ user)
    (hinv : db.results.countP (fun r => r.cook_session == spk) ≤ 1) :
    cookResultEditDispatch db user spk newPk = .ok (res, db) ∧
    owned_q user res.created_by = false := by
  obtain ⟨s', hs'⟩ := filter_find?_isSome
    (f := fun x : CookSession => owned_q user x.created_by)
    (g := fun x : CookSession => x.pk == spk) hs hsv (by simp [hspk])
  have hp : (res.cook_session == spk) = true := by simp [hrs]
  have hrfind : db.results.find? (fun r => r.cook_session == spk) = some res :=
    find?_eq_of_countP_le_one hres hp hinv
  constructor
  · unfold cookResultEditDispatch cookResultGetOrCreate
    rw [hs', hrfind]
  · rw [hro, owned_q_some_of_ne hne]

/-- C10 witness: user 0 edits session 1's result although it belongs to
user 2. -/
theorem C10_result_edit_ignores_result_owner_witness :
    cookResultEditDispatch exDB10 0 1 5 = .ok (exResult2, exDB10) ∧
    owned_q 0 exResult2.created_by = false :=
  C10_result_edit_ignores_result_owner exDB10 0 2 1 5 exSession1 exResult2
    (by decide) (by decide) (by decide) (by decide) (by decide)
    (by decide) (by decide) (by decide)

-- ----------------------------
-- C4
-- ----------------------------

/-- C4: deleting a dish that still has cook sessions fails with a
ProtectedError and leaves the state unchanged; deleting a visible recipe
succeeds, removes only the recipe, and nullifies (rather than cascades)
every `Dish.default_recipe` / `CookSession.recipe_used` reference to it. -/
theorem C4_delete_protect_and_setnull (db : DB) (user : UserId) (dpk rpk : Nat) :
    ((∃ d ∈ db.dishes, d.pk = dpk ∧ owned_q user d.created_by = true) →
     (∃ s ∈ db.sessions, s.dish = dpk) →
     (dishDelete db user dpk = .error .protectedErr ∧ applyDishDelete db user dpk = db)) ∧
    ((∃ r ∈ db.recipes, r.pk = rpk ∧ owned_q user r.created_by = true) →
     ∃ db', recipeDelete db user rpk = .ok db' ∧
       (∀ e ∈ db'.recipes, e.pk ≠ rpk) ∧
       db'.dishes.length = db.dishes.length ∧
       db'.sessions.length = db.sessions.length ∧
       (∀ d ∈ db.dishes, nullifyDishRecipeRef rpk d ∈ db'.dishes) ∧
       (∀ s ∈ db.sessions, nullifySessionRecipeRef rpk s ∈ db'.sessions) ∧
       (∀ d ∈ db'.dishes, d.default_recipe ≠ some rpk) ∧
       (∀ s ∈ db'.sessions, s.recipe_used ≠ some rpk)) := by
  constructor
  · intro hd hsx
    obtain ⟨d, hdm, hdpk, hdo⟩ := hd
    obtain ⟨d', hd'⟩ := filter_find?_isSome
      (f := fun x : Dish => owned_q user x.created_by)
      (g := fun x : Dish => x.pk == dpk) hdm hdo (by simp [hdpk])
    have hd'pk : d'.pk = dpk := by simpa using List.find?_some hd'
    obtain ⟨s, hsm, hsd⟩ := hsx
    have hany : db.sessions.any (fun x => x.dish == d'.pk) = true := by
      rw [hd'pk]
      exact List.any_eq_true.mpr ⟨s, hsm, by simp [hsd]⟩
    constructor
    · unfold dishDelete
      rw [hd']
      simp [hany]
    · unfold applyDishDelete dishDelete
      rw [hd']
      simp [hany]
  · intro hr
    obtain ⟨r, hrm, hrpk, hro⟩ := hr
    obtain ⟨r', hr'⟩ := filter_find?_isSome
      (f := fun x : Recipe => owned_q user x.created_by)
      (g := fun x : Recipe => x.pk == rpk) hrm hro (by simp [hrpk])
    have hr'pk : r'.pk = rpk := by simpa using List.find?_some hr'
    have hnullD : ∀ d₀ : Dish, (nullifyDishRecipeRef rpk d₀).default_recipe ≠ some rpk := by
      intro d₀
      unfold nullifyDishRecipeRef
      split
      · simp
      · rename_i hcond
        simpa using hcond
    have hnullS : ∀ s₀ : CookSession,
        (nullifySessionRecipeRef rpk s₀).recipe_used ≠ some rpk := by
      intro s₀
      unfold nullifySessionRecipeRef
      split
      · simp
      · rename_i hcond
        simpa using hcond
    refine ⟨{ db with
        recipes := db.recipes.filter (fun e => !(e.pk == rpk)),
        dishes := db.dishes.map (nullifyDishRecipeRef rpk),
        sessions := db.sessions.map (nullifySessionRecipeRef rpk) },
      ?_, ?_, ?_, ?_, ?_, ?_, ?_, ?_⟩
    · unfold recipeDelete
      rw [hr']
      dsimp only
      rw [hr'pk]
    · intro e he
      have := (List.mem_filter.mp he).2
      simpa using this
    · exact List.length_map _ _
    · exact List.length_map _ _
    · intro d hdm
      exact List.mem_map_of_mem _ hdm
    · intro s hsm
      exact List.mem_map_of_mem _ hsm
    · intro d hdm
      obtain ⟨d₀, _, rfl⟩ := List.mem_map.mp hdm
      exact hnullD d₀
    · intro s hsm
      obtain ⟨s₀, _, rfl⟩ := List.mem_map.mp hsm
      exact hnullS s₀

/-- C4 witness: in the concrete database, deleting dish 1 (which has a
session) is refused and changes nothing, while deleting recipe 1 nullifies
the dish's default_recipe and the session's recipe_used. -/
theorem C4_delete_protect_and_setnull_witness :
    (dishDelete exDB 0 1 = .error .protectedErr ∧ applyDishDelete exDB 0 1 = exDB) ∧
    (∃ db', recipeDelete exDB 0 1 = .ok db' ∧
       (∀ e ∈ db'.recipes, e.pk ≠ 1) ∧
       db'.dishes.length = exDB.dishes.length ∧
       db'.sessions.length = exDB.sessions.length ∧
       (∀ d ∈ exDB.dishes, nullifyDishRecipeRef 1 d ∈ db'.dishes) ∧
       (∀ s ∈ exDB.sessions, nullifySessionRecipeRef 1 s ∈ db'.sessions) ∧
       (∀ d ∈ db'.dishes, d.default_recipe ≠ some 1) ∧
       (∀ s ∈ db'.sessions, s.recipe_used ≠ some 1)) :=
  ⟨(C4_delete_protect_and_setnull exDB 0 1 1).1
      ⟨exDish1, by decide, by decide, by decide⟩ ⟨exSession1, by decide, by decide⟩,
   (C4_delete_protect_and_setnull exDB 0 1 1).2
      ⟨exRecipe1, by decide, by decide, by decide⟩⟩

-- ----------------------------
-- C5 (corrected)
-- ----------------------------

/-- Example: a null-owned dish named Hoppin John. -/
def exDishNull1 : Dish :=
  { pk := 10, created_by := none, name := "Hoppin John", description := "",
    default_recipe := none, is_active := true }

/-- Example: a second null-owned dish with the same name. -/
def exDishNull2 : Dish :=
  { pk := 11, created_by := none, name := "Hoppin John", description := "",
    default_recipe := none, is_active := true }

/-- Example database holding only the first null-owned dish. -/
def exDB5 : DB :=
  { recipes := [], dishes := [exDishNull1], sessions := [], results := [],
    notes := [], images := [], urls := [], pdfs := [] }

/-- C5 counterexample: with both owners null ("the same owner"), a second
dish with the same name is accepted by `uniq_dish_per_owner_name` (SQL
UNIQUE treats NULLs as distinct), contradicting the claim that it is
rejected. -/
theorem C5_dish_uniqueness_counterexample :
    exDishNull1.name = exDishNull2.name ∧
    exDishNull1.created_by = none ∧ exDishNull2.created_by = none ∧
    exDishNull1 ∈ exDB5.dishes ∧
    dishInsert exDB5 exDishNull2 = .ok { exDB5 with dishes := [exDishNull1, exDishNull2] } := by
  refine ⟨rfl, rfl, rfl, by decide, rfl⟩

/-- C5 (amended): the (created_by, name) pair is unique for non-null owners:
a second dish with the same name under the same non-null owner is rejected
with an IntegrityError; a dish whose name collides with no same-(non-null-)
owner row is inserted, and a null-owned dish is always inserted (NULL owners
never collide, even with each other). -/
theorem C5_dish_uniqueness_amended (db : DB) (d : Dish) :
    ((∃ u, d.created_by = some u ∧ ∃ e ∈ db.dishes, e.created_by = some u ∧ e.name = d.name) →
      dishInsert db d = .error .uniqueViolation) ∧
    ((∀ e ∈ db.dishes, ¬(e.name = d.name ∧ e.created_by = d.created_by ∧ d.created_by ≠ none)) →
      dishInsert db d = .ok { db with dishes := db.dishes ++ [d] }) ∧
    (d.created_by = none → dishInsert db d = .ok { db with dishes := db.dishes ++ [d] }) := by
  have hsucc : (∀ e ∈ db.dishes, ¬(e.name = d.name ∧ e.created_by = d.created_by ∧
      d.created_by ≠ none)) →
      dishInsert db d = .ok { db with dishes := db.dishes ++ [d] } := by
    intro hno
    have hany : db.dishes.any (fun e => dishConflicts e d) = false := by
      rw [List.any_eq_false]
      intro e hem hcon
      cases he : e.created_by with
      | none => simp [dishConflicts, he] at hcon
      | some u =>
          cases hd : d.created_by with
          | none => simp [dishConflicts, he, hd] at hcon
          | some v =>
              simp [dishConflicts, he, hd] at hcon
              exact hno e hem ⟨hcon.1, by rw [he, hd, hcon.2], by rw [hd]; simp⟩
    unfold dishInsert
    simp [hany]
  refine ⟨?_, hsucc, ?_⟩
  · rintro ⟨u, hdu, e, hem, heu, hen⟩
    have hany : db.dishes.any (fun e => dishConflicts e d) = true :=
      List.any_eq_true.mpr ⟨e, hem, by simp [dishConflicts, heu, hdu, hen]⟩
    unfold dishInsert
    simp [hany]
  · intro hnone
    exact hsucc (fun e hem hc => hc.2.2 hnone)

/-- Example: a dish colliding with `exDish1` (same owner 0, same name). -/
def exDish5b : Dish :=
  { pk := 12, created_by := some 0, name := "Oven Bacon", description := "",
    default_recipe := none, is_active := true }

/-- C5 witness: inserting a same-name dish under the same non-null owner is
refused, while a null-owned dish with a fresh name is inserted. -/
theorem C5_dish_uniqueness_amended_witness :
    dishInsert exDB exDish5b = .error .uniqueViolation ∧
    dishInsert exDB exDishNull1 = .ok { exDB with dishes := exDB.dishes ++ [exDishNull1] } :=
  ⟨(C5_dish_uniqueness_amended exDB exDish5b).1 ⟨0, rfl, exDish1, by decide, rfl, rfl⟩,
   (C5_dish_uniqueness_amended exDB exDishNull1).2.2 rfl⟩

-- ----------------------------
-- C6
-- ----------------------------

lemma length_owned_window (db : DB) (user : UserId) (w : CookSession → Bool) :
    ((db.sessions.filter (fun s => owned_q user s.created_by)).filter w).length =
      db.sessions.countP (fun s => owned_q user s.created_by && w s) := by
  rw [← List.countP_eq_length_filter, List.countP_filter]
  exact List.countP_congr (fun s _ => by rw [Bool.and_comm])

/-- C6: the four dashboard buckets count, over the requester's
ownership-filtered sessions, exactly those with cooked_on = today;
today < cooked_on ≤ today + 7; today < cooked_on ≤ today + 30; and
today − 30 ≤ cooked_on ≤ today, respectively. -/
theorem C6_dashboard_buckets (db : DB) (user : UserId) (today : Int) :
    sessionBuckets db user today =
      [ ⟨"Today", db.sessions.countP
          (fun s => owned_q user s.created_by && (s.cooked_on == today))⟩,
        ⟨"Next 7 days", db.sessions.countP
          (fun s => owned_q user s.created_by &&
            (decide (today < s.cooked_on) && decide (s.cooked_on ≤ today + 7)))⟩,
        ⟨"Next 30 days", db.sessions.countP
          (fun s => owned_q user s.created_by &&
            (decide (today < s.cooked_on) && decide (s.cooked_on ≤ today + 30)))⟩,
        ⟨"Past 30 days", db.sessions.countP
          (fun s => owned_q user s.created_by &&
            (decide (today - 30 ≤ s.cooked_on) && decide (s.cooked_on ≤ today)))⟩ ] := by
  unfold sessionBuckets bucketTodaySessions bucketNext7Sessions bucketNext30Sessions
    bucketPast30Sessions dashboardSessionQs
  rw [length_owned_window, length_owned_window, length_owned_window, length_owned_window]

-- ----------------------------
-- C7
-- ----------------------------

lemma pdfDocumentSave_preserves (p : PDFDocument) :
    (pdfDocumentSave p).content_type = p.content_type ∧
    (pdfDocumentSave p).object_id = p.object_id ∧
    (pdfDocumentSave p).created_by = p.created_by := by
  unfold pdfDocumentSave
  split
  · split
    · exact ⟨rfl, rfl, rfl⟩
    · exact ⟨rfl, rfl, rfl⟩
  · exact ⟨rfl, rfl, rfl⟩

/-- C7: when the target resolves, each attachment create appends exactly one
row whose content_type is the target's model, whose object_id is the decimal
string of the target's pk, and whose created_by is stamped with the
requesting user (the form leaves it absent). -/
theorem C7_attachment_binding (db : DB) (user : UserId) (model_key : String)
    (pk newPk newUuid : Nat) (target : TargetObj)
    (fN : NoteForm) (fU : ReferenceURLForm) (fI : TrackedImageForm) (fP : PDFDocumentForm)
    (hres : get_target_or_404 db user model_key pk = .ok target) :
    (∃ db' n, targetNoteCreate db user model_key pk newPk fN = .ok db' ∧
      db'.notes = db.notes ++ [n] ∧ n.content_type = target.model ∧
      n.object_id = toString target.pk ∧ n.created_by = some user) ∧
    (∃ db' w, targetReferenceURLCreate db user model_key pk newPk fU = .ok db' ∧
      db'.urls = db.urls ++ [w] ∧ w.content_type = target.model ∧
      w.object_id = toString target.pk ∧ w.created_by = some user) ∧
    (∃ db' i, targetTrackedImageCreate db user model_key pk newPk newUuid fI = .ok db' ∧
      db'.images = db.images ++ [i] ∧ i.content_type = target.model ∧
      i.object_id = toString target.pk ∧ i.created_by = some user) ∧
    (∃ db' g, targetPDFDocumentCreate db user model_key pk newPk newUuid fP = .ok db' ∧
      db'.pdfs = db.pdfs ++ [g] ∧ g.content_type = target.model ∧
      g.object_id = toString target.pk ∧ g.created_by = some user) := by
  refine ⟨?_, ?_, ?_, ?_⟩
  · refine ⟨{ db with notes := db.notes ++ [⟨newPk, some user, target.model,
      toString target.pk, fN.title, fN.body, fN.is_pinned⟩] },
      ⟨newPk, some user, target.model, toString target.pk,
      fN.title, fN.body, fN.is_pinned⟩, ?_, rfl, rfl, rfl, rfl⟩
    unfold targetNoteCreate
    rw [hres]
    rfl
  · refine ⟨{ db with urls := db.urls ++ [⟨newPk, some user, target.model,
      toString target.pk, fU.kind, fU.title, fU.url, fU.description,
      fU.sort_order, fU.is_primary⟩] },
      ⟨newPk, some user, target.model, toString target.pk,
      fU.kind, fU.title, fU.url, fU.description, fU.sort_order, fU.is_primary⟩,
      ?_, rfl, rfl, rfl, rfl⟩
    unfold targetReferenceURLCreate
    rw [hres]
    rfl
  · refine ⟨{ db with images := db.images ++ [⟨newPk, some user, newUuid, target.model,
      toString target.pk, fI.image, fI.caption, fI.alt_text, fI.taken_at,
      fI.sort_order, fI.is_cover⟩] },
      ⟨newPk, some user, newUuid, target.model, toString target.pk,
      fI.image, fI.caption, fI.alt_text, fI.taken_at, fI.sort_order, fI.is_cover⟩,
      ?_, rfl, rfl, rfl, rfl⟩
    unfold targetTrackedImageCreate
    rw [hres]
    rfl
  · have hpres := pdfDocumentSave_preserves
      ⟨newPk, some user, newUuid, target.model, toString target.pk,
       fP.kind, fP.title, fP.description, fP.pdf, "", fP.page_count, fP.sort_order⟩
    refine ⟨{ db with pdfs := db.pdfs ++ [pdfDocumentSave ⟨newPk, some user, newUuid,
      target.model, toString target.pk, fP.kind, fP.title, fP.description, fP.pdf, "",
      fP.page_count, fP.sort_order⟩] },
      pdfDocumentSave ⟨newPk, some user, newUuid, target.model, toString target.pk,
      fP.kind, fP.title, fP.description, fP.pdf, "", fP.page_count, fP.sort_order⟩,
      ?_, rfl, hpres.1, hpres.2.1, hpres.2.2⟩
    unfold targetPDFDocumentCreate
    rw [hres]
    rfl

/-- C7 witness: attaching a note and a PDF to recipe 1 as user 0 binds the
new rows to content type recipe, object id "1", and owner user 0. -/
theorem C7_attachment_binding_witness :
    (∃ db' n, targetNoteCreate exDB 0 "recipe" 1 7 exNoteForm = .ok db' ∧
      db'.notes = exDB.notes ++ [n] ∧ n.content_type = TargetModel.recipe ∧
      n.object_id = toString (1 : Nat) ∧ n.created_by = some 0) ∧
    (∃ db' g, targetPDFDocumentCreate exDB 0 "recipe" 1 7 9 exPDFForm = .ok db' ∧
      db'.pdfs = exDB.pdfs ++ [g] ∧ g.content_type = TargetModel.recipe ∧
      g.object_id = toString (1 : Nat) ∧ g.created_by = some 0) := by
  have h := C7_attachment_binding exDB 0 "recipe" 1 7 9 ⟨.recipe, 1, some 0⟩
    exNoteForm exURLForm exImageForm exPDFForm rfl
  exact ⟨h.1, h.2.2.2⟩

-- ----------------------------
-- C8
-- ----------------------------

/-- C8: saving a PDFDocument with a file and a blank original_filename sets
original_filename to the final path segment of the file's name; a save with
a non-blank original_filename changes nothing; saving is idempotent. -/
theorem C8_pdf_original_filename (p : PDFDocument) (name : String) :
    (p.pdf = some name → p.original_filename = "" →
      (pdfDocumentSave p).original_filename = (name.splitOn "/").getLastD "") ∧
    (p.original_filename ≠ "" → pdfDocumentSave p = p) ∧
    pdfDocumentSave (pdfDocumentSave p) = pdfDocumentSave p := by
  refine ⟨?_, ?_, ?_⟩
  · intro hp hof
    unfold pdfDocumentSave
    rw [hp]
    dsimp only
    rw [if_pos hof]
  · intro hof
    unfold pdfDocumentSave
    cases hpdf : p.pdf with
    | none => rfl
    | some n =>
        dsimp only
        rw [if_neg hof]
  · cases hpdf : p.pdf with
    | none =>
        have h1 : pdfDocumentSave p = p := by
          unfold pdfDocumentSave
          rw [hpdf]
        rw [h1, h1]
    | some n =>
        by_cases hof : p.original_filename = ""
        · have h1 : pdfDocumentSave p =
              { p with original_filename := (n.splitOn "/").getLastD "" } := by
            unfold pdfDocumentSave
            rw [hpdf]
            dsimp only
            rw [if_pos hof]
          rw [h1]
          unfold pdfDocumentSave
          rw [show ({ p with original_filename := (n.splitOn "/").getLastD "" } :
            PDFDocument).pdf = p.pdf from rfl, hpdf]
          dsimp only
          by_cases hlast : (n.splitOn "/").getLastD "" = ""
          · rw [if_pos hlast]
          · rw [if_neg hlast]
        · have h1 : pdfDocumentSave p = p := by
            unfold pdfDocumentSave
            rw [hpdf]
            dsimp only
            rw [if_neg hof]
          rw [h1, h1]

/-- Example: a freshly uploaded PDF document row with a blank
original_filename. -/
def exPDFDoc : PDFDocument :=
  { pk := 3, created_by := some 0, uuid := 9, content_type := .recipe,
    object_id := "1", kind := .other, title := "", description := "",
    pdf := some "cooking-companion/pdfs/9/card.pdf", original_filename := "",
    page_count := none, sort_order := 0 }

/-- C8 witness: saving the example PDF derives "card.pdf" and a second save
changes nothing. -/
theorem C8_pdf_original_filename_witness :
    (pdfDocumentSave exPDFDoc).original_filename =
      (("cooking-companion/pdfs/9/card.pdf".splitOn "/").getLastD "") ∧
    pdfDocumentSave (pdfDocumentSave exPDFDoc) = pdfDocumentSave exPDFDoc :=
  ⟨(C8_pdf_original_filename exPDFDoc "cooking-companion/pdfs/9/card.pdf").1 rfl rfl,
   (C8_pdf_original_filename exPDFDoc "cooking-companion/pdfs/9/card.pdf").2.2⟩

-- ----------------------------
-- C9
-- ----------------------------

/-- C9: when the record fetched by an update view (`get_object` on the
ownership-filtered queryset) has a null created_by, the shared
`form_valid` stamps the requesting user as owner before saving; afterwards
every stored row with that pk is owned by the editor and invisible to any
other user under the ownership predicate.  Holds for Recipe, Dish and
CookSession updates alike. -/
theorem C9_update_transfers_ownership (db : DB) (user v : UserId) (pk : Nat)
    (hne : v ≠ user) :
    (∀ (f : RecipeFormData) r,
      (recipeEditQueryset db user).find? (fun x => x.pk == pk) = some r →
      r.created_by = none →
      ∃ db', recipeUpdate db user pk f = .ok db' ∧
        ∀ e ∈ db'.recipes, e.pk = pk →
          (e.created_by = some user ∧ owned_q v e.created_by = false ∧
           e ∉ recipeDetailQueryset db' v)) ∧
    (∀ (f : DishFormData) d,
      (dishEditQueryset db user).find? (fun x => x.pk == pk) = some d →
      d.created_by = none →
      ∃ db', dishUpdate db user pk f = .ok db' ∧
        ∀ e ∈ db'.dishes, e.pk = pk →
          (e.created_by = some user ∧ owned_q v e.created_by = false ∧
           e ∉ dishDetailQueryset db' v)) ∧
    (∀ (f : CookSessionFormData) s,
      (cookSessionEditQueryset db user).find? (fun x => x.pk == pk) = some s →
      s.created_by = none →
      ∃ db', cookSessionUpdate db user pk f = .ok db' ∧
        ∀ e ∈ db'.sessions, e.pk = pk →
          (e.created_by = some user ∧ owned_q v e.created_by = false ∧
           e ∉ cookSessionDetailQueryset db' v)) := by
  have howned : owned_q v (some user) = false := owned_q_some_of_ne (Ne.symm hne)
  refine ⟨?_, ?_, ?_⟩
  · intro f r hfind hnone
    refine ⟨{ db with recipes := db.recipes.map (fun e => if e.pk == pk then
        { applyRecipeForm f r with created_by := some user } else e) }, ?_, ?_⟩
    · unfold recipeUpdate
      rw [hfind]
      dsimp only
      rw [if_pos (show (applyRecipeForm f r).created_by = none from hnone)]
    · intro e he hepk
      obtain ⟨e₀, he₀, heq⟩ := List.mem_map.mp he
      by_cases h0 : (e₀.pk == pk) = true
      · rw [if_pos h0] at heq
        subst heq
        refine ⟨rfl, howned, ?_⟩
        intro hmm
        have hq := (List.mem_filter.mp hmm).2
        rw [show ({ applyRecipeForm f r with created_by := some user } :
          Recipe).created_by = some user from rfl, howned] at hq
        simp at hq
      · rw [if_neg h0] at heq
        subst heq
        exact absurd (by simp [hepk]) h0
  · intro f d hfind hnone
    refine ⟨{ db with dishes := db.dishes.map (fun e => if e.pk == pk then
        { applyDishForm f d with created_by := some user } else e) }, ?_, ?_⟩
    · unfold dishUpdate
      rw [hfind]
      dsimp only
      rw [if_pos (show (applyDishForm f d).created_by = none from hnone)]
    · intro e he hepk
      obtain ⟨e₀, he₀, heq⟩ := List.mem_map.mp he
      by_cases h0 : (e₀.pk == pk) = true
      · rw [if_pos h0] at heq
        subst heq
        refine ⟨rfl, howned, ?_⟩
        intro hmm
        have hq := (List.mem_filter.mp hmm).2
        rw [show ({ applyDishForm f d with created_by := some user } :
          Dish).created_by = some user from rfl, howned] at hq
        simp at hq
      · rw [if_neg h0] at heq
        subst heq
        exact absurd (by simp [hepk]) h0
  · intro f s hfind hnone
    refine ⟨{ db with sessions := db.sessions.map (fun e => if e.pk == pk then
        { applyCookSessionForm f s with created_by := some user } else e) }, ?_, ?_⟩
    · unfold cookSessionUpdate
      rw [hfind]
      dsimp only
      rw [if_pos (show (applyCookSessionForm f s).created_by = none from hnone)]
    · intro e he hepk
      obtain ⟨e₀, he₀, heq⟩ := List.mem_map.mp he
      by_cases h0 : (e₀.pk == pk) = true
      · rw [if_pos h0] at heq
        subst heq
        refine ⟨rfl, howned, ?_⟩
        intro hmm
        have hq := (List.mem_filter.mp hmm).2
        rw [show ({ applyCookSessionForm f s with created_by := some user } :
          CookSession).created_by = some user from rfl, howned] at hq
        simp at hq
      · rw [if_neg h0] at heq
        subst heq
        exact absurd (by simp [hepk]) h0

/-- Example form data resubmitting the shared recipe's fields. -/
def exRecipeForm : RecipeFormData :=
  { title := "Pan Eggs", description := "", author := "", ingredients := "",
    instructions := "", yield_text := "", prep_minutes := none,
    cook_minutes := none, is_favorite := false, is_active := true }

/-- C9 witness: user 0 edits the unowned recipe 2; afterwards it is owned by
user 0 and invisible to user 1. -/
theorem C9_update_transfers_ownership_witness :
    ∃ db', recipeUpdate exDB 0 2 exRecipeForm = .ok db' ∧
      ∀ e ∈ db'.recipes, e.pk = 2 →
        (e.created_by = some 0 ∧ owned_q 1 e.created_by = false ∧
         e ∉ recipeDetailQueryset db' 1) :=
  (C9_update_transfers_ownership exDB 0 1 2 (by decide)).1 exRecipeForm exRecipe2
    (by decide) (by decide)

end CookingCompanion
